import Mathlib

/-!
Verification development for the weather-display-system firmware
(src/firmware/weather-display-integrated/).  The repository source consists
of two configuration headers (config.h and driver.h); the behavioral core
they parameterize (PowerScheduler, UnitConverter, WeatherFetcher,
StationDataModel, DisplayRenderer, OrchestratorStateMachine) is described by
the specification and modelled here from its words, grounded on the
constants that do appear in the source.
-/

namespace WeatherDisplay

/-! ### Configuration constants

Embedded from src/firmware/weather-display-integrated/config.h. -/

namespace Config

def WEATHER_UPDATE_INTERVAL : ℕ := 180000

def MINIMUM_SLEEP_TIME : ℕ := 30000

def FULL_REFRESH_ALWAYS : ℕ := 1

def FLASH_CLEAR_CYCLES : ℕ := 1

def ANTI_GHOST_DELAY : ℕ := 100

def CHAMONIX_DISPLAY_UNIT : String := "kph"

def SOLENT_DISPLAY_UNIT : String := "kts"

def ENABLE_REGIONAL_UNITS : ℕ := 1

def MAX_HTTP_RETRIES : ℕ := 3

def HTTP_RETRY_DELAY : ℕ := 1000

def JSON_BUFFER_SIZE : ℕ := 4096

def WIND_UNIT_SOURCE : String := "mps"

def ENABLE_NULL_HANDLING : ℕ := 1

def TEMPERATURE_RANGE_MIN : ℚ := -60

def TEMPERATURE_RANGE_MAX : ℚ := 60

def ERROR_RECOVERY_TIMEOUT : ℕ := 300000

end Config

/-! Embedded from src/firmware/weather-display-integrated/driver.h. -/

namespace Driver

def JSON_BUFFER_SIZE : ℕ := 2048

def HTTP_TIMEOUT : ℕ := 10000

def HEAP_WARNING_THRESHOLD : ℕ := 50000

def USE_FULL_REFRESH : Bool := true

def ANTI_GHOSTING_ENABLED : Bool := true

end Driver

/-! ### PowerScheduler -/

/-- Modelled from the spec: `PowerScheduler.computeSleepDuration` is missing
from src/ (only configuration constants are present).  Per the spec it
returns `max(minimumSleep, targetInterval - cycleElapsed)`.  Durations are
integers (milliseconds) so that the subtraction can go negative when the
cycle overran its target interval. -/
def computeSleepDuration (cycleElapsed targetInterval minimumSleep : ℤ) : ℤ :=
  max minimumSleep (targetInterval - cycleElapsed)

/-! ### UnitConverter -/

/-- Wind-speed display units selected by the regional configuration
(CHAMONIX_DISPLAY_UNIT "kph", SOLENT_DISPLAY_UNIT "kts"). -/
inductive WindUnit : Type
  | kph : WindUnit
  | kts : WindUnit
deriving DecidableEq, Repr

/-- Modelled from the spec: the wind-speed conversion factors of
`UnitConverter`, missing from src/.  Meters/second to km/h is x3.6;
meters/second to knots is x1.94384.  Speeds are exact rationals. -/
def conversionFactor : WindUnit → ℚ
  | WindUnit.kph => 3.6
  | WindUnit.kts => 1.94384

/-- Modelled from the spec: `UnitConverter.toDisplayUnit`, missing from
src/.  Pure total function; a null wind speed passes through as null and is
never substituted by zero. -/
def toDisplayUnit (speed : Option ℚ) (u : WindUnit) : Option ℚ :=
  speed.map (fun s => s * conversionFactor u)

/-- Modelled from the spec: the inverse conversion taking a displayed value
back to meters/second, used to state that the kph and knots conversions are
invertible. -/
def fromDisplayUnit (v : ℚ) (u : WindUnit) : ℚ :=
  v / conversionFactor u

/-! ### StationDataModel -/

/-- A raw station entry of the backend JSON payload: each field may be null.
Wind speed arrives in meters/second (WIND_UNIT_SOURCE "mps"). -/
structure StationEntry : Type where
  stationId : String
  windSpeed : Option ℚ
  windDirection : Option ℚ
  temperature : Option ℚ
  timestamp : Option ℕ
deriving DecidableEq, Repr

/-- A validated in-memory station reading held by the StationDataModel. -/
structure StationReading : Type where
  stationId : String
  windSpeed : Option ℚ
  windDirection : Option ℚ
  temperature : Option ℚ
  timestamp : Option ℕ
deriving DecidableEq, Repr

/-- Temperature validity: within the configured range
[TEMPERATURE_RANGE_MIN, TEMPERATURE_RANGE_MAX]. -/
def validTemp (t : ℚ) : Prop :=
  Config.TEMPERATURE_RANGE_MIN ≤ t ∧ t ≤ Config.TEMPERATURE_RANGE_MAX

instance (t : ℚ) : Decidable (validTemp t) := by
  unfold validTemp; infer_instance

/-- Modelled from the spec: temperature validation of the
StationDataModel, missing from src/.  A value outside the configured valid
range is treated as absent, not clamped. -/
def validateTemperature : Option ℚ → Option ℚ
  | none => none
  | some v => if validTemp v then some v else none

/-- True when every field of the entry is null. -/
def allFieldsNull (e : StationEntry) : Bool :=
  e.windSpeed.isNone && e.windDirection.isNone
    && e.temperature.isNone && e.timestamp.isNone

/-- Outcome of parsing one station entry: a present reading, or a missing
station (the ENABLE_NULL_HANDLING policy for an all-null entry). -/
inductive StationParse : Type
  | present : StationReading → StationParse
  | missing : StationParse
deriving DecidableEq, Repr

def StationParse.isPresent : StationParse → Bool
  | StationParse.present _ => true
  | StationParse.missing => false

/-- Modelled from the spec: per-station parsing of WeatherFetcher, missing
from src/.  A station whose fields are all null becomes a missing station,
not a parse failure; otherwise its fields are carried through (null fields
as absent readings) with the temperature validated. -/
def parseStation (e : StationEntry) : StationParse :=
  if allFieldsNull e then StationParse.missing
  else StationParse.present
    { stationId := e.stationId
      windSpeed := e.windSpeed
      windDirection := e.windDirection
      temperature := validateTemperature e.temperature
      timestamp := e.timestamp }

/-! ### WeatherFetcher -/

/-- A raw HTTP payload: its byte size and the station entries its JSON body
holds once decoded. -/
structure Payload : Type where
  size : ℕ
  entries : List StationEntry
deriving DecidableEq, Repr

/-- The per-attempt error taxonomy of the spec. -/
inductive AttemptError : Type
  | ConnectionRefused : AttemptError
  | FetchTimeoutError : AttemptError
  | FetchHttpStatusError : AttemptError
  | ParseBufferOverflowError : AttemptError
  | ParseMissingFieldsError : AttemptError
deriving DecidableEq, Repr

/-- Modelled from the spec: the per-attempt payload parse of
WeatherFetcher, missing from src/.  A payload larger than the parse buffer
fails deterministically with ParseBufferOverflowError before any station is
read; otherwise stations parse individually, and the attempt fails with
ParseMissingFieldsError only when no station at all parsed to a present
reading. -/
def parsePayload (bufSize : ℕ) (p : Payload) :
    Except AttemptError (List StationParse) :=
  if bufSize < p.size then Except.error AttemptError.ParseBufferOverflowError
  else
    let parsed := p.entries.map parseStation
    if parsed.any StationParse.isPresent then Except.ok parsed
    else Except.error AttemptError.ParseMissingFieldsError

/-- What the network does on one attempt: refuse the connection, or respond
after `serviceTime` milliseconds with an HTTP status and a body. -/
inductive AttemptBehavior : Type
  | refuse : AttemptBehavior
  | respond : ℕ → ℕ → Payload → AttemptBehavior
deriving DecidableEq, Repr

/-- Modelled from the spec: one fetch attempt of WeatherFetcher, missing
from src/.  The attempt is bounded by its own HTTP timeout: a response
slower than the timeout is aborted as FetchTimeoutError after exactly
`timeout` ms.  A non-2xx status is an attempt failure.  Returns the parse
outcome and the time the attempt consumed. -/
def runAttempt (bufSize timeout : ℕ) :
    AttemptBehavior → Except AttemptError (List StationParse) × ℕ
  | AttemptBehavior.refuse => (Except.error AttemptError.ConnectionRefused, 0)
  | AttemptBehavior.respond t status p =>
    if timeout < t then (Except.error AttemptError.FetchTimeoutError, timeout)
    else if status / 100 = 2 then (parsePayload bufSize p, t)
    else (Except.error AttemptError.FetchHttpStatusError, t)

/-- The two failure causes FetchResult distinguishes after retry
exhaustion. -/
inductive FetchFailureKind : Type
  | NetworkError : FetchFailureKind
  | ParseError : FetchFailureKind
deriving DecidableEq, Repr

/-- Modelled from the spec: classification of an attempt error into the
failure kind surfaced after retry exhaustion — network-side causes versus
payload-side causes. -/
def errorKind : AttemptError → FetchFailureKind
  | AttemptError.ConnectionRefused => FetchFailureKind.NetworkError
  | AttemptError.FetchTimeoutError => FetchFailureKind.NetworkError
  | AttemptError.FetchHttpStatusError => FetchFailureKind.NetworkError
  | AttemptError.ParseBufferOverflowError => FetchFailureKind.ParseError
  | AttemptError.ParseMissingFieldsError => FetchFailureKind.ParseError

/-- FetchResult: success with all stations, a success carrying
missing stations, or a typed failure after retry exhaustion. -/
inductive FetchResult : Type
  | Success : List StationParse → FetchResult
  | PartialSuccess : List StationParse → ℕ → FetchResult
  | Failure : FetchFailureKind → FetchResult
deriving DecidableEq, Repr

/-- Classify a successfully parsed attempt: Success when no station is
missing, otherwise a success carrying the count of missing stations. -/
def classifyParsed (parsed : List StationParse) : FetchResult :=
  let missingCount := parsed.countP (fun s => ¬ s.isPresent = true)
  if missingCount = 0 then FetchResult.Success parsed
  else FetchResult.PartialSuccess parsed missingCount

/-- The trace of one fetch: its result, the attempts it made, the total
inter-attempt delay it slept, and the total attempt time it consumed. -/
structure FetchTrace : Type where
  result : FetchResult
  attemptsMade : ℕ
  totalDelay : ℕ
  attemptTime : ℕ
deriving DecidableEq, Repr

/-- Modelled from the spec: the retry loop of `WeatherFetcher.fetch`,
missing from src/.  Makes up to `remaining` attempts starting at index
`idx`, sleeping a fixed `retryDelay` between consecutive attempts; stops at
the first attempt that parses, and after exhausting its attempts returns
Failure with the kind of the last error. -/
def fetchFrom (bufSize timeout retryDelay : ℕ) (env : ℕ → AttemptBehavior)
    (idx : ℕ) : ℕ → FetchTrace
  | 0 => { result := FetchResult.Failure FetchFailureKind.NetworkError
           attemptsMade := 0, totalDelay := 0, attemptTime := 0 }
  | remaining + 1 =>
    let a := runAttempt bufSize timeout (env idx)
    match a.1 with
    | Except.ok parsed =>
      { result := classifyParsed parsed
        attemptsMade := 1, totalDelay := 0, attemptTime := a.2 }
    | Except.error e =>
      if remaining = 0 then
        { result := FetchResult.Failure (errorKind e)
          attemptsMade := 1, totalDelay := 0, attemptTime := a.2 }
      else
        let rest := fetchFrom bufSize timeout retryDelay env (idx + 1) remaining
        { result := rest.result
          attemptsMade := rest.attemptsMade + 1
          totalDelay := rest.totalDelay + retryDelay
          attemptTime := rest.attemptTime + a.2 }

/-- Modelled from the spec: `WeatherFetcher.fetch` at the configured
parameters — MAX_HTTP_RETRIES attempts, HTTP_RETRY_DELAY between attempts,
each attempt bounded by HTTP_TIMEOUT, parsing into the JSON_BUFFER_SIZE
buffer of config.h. -/
def fetch (env : ℕ → AttemptBehavior) : FetchTrace :=
  fetchFrom Config.JSON_BUFFER_SIZE Driver.HTTP_TIMEOUT Config.HTTP_RETRY_DELAY
    env 0 Config.MAX_HTTP_RETRIES

/-! ### OrchestratorStateMachine -/

/-- The states of the orchestrator. -/
inductive OrchState : Type
  | Boot : OrchState
  | EnsureNetwork : OrchState
  | Fetching : OrchState
  | Rendering : OrchState
  | Sleeping : OrchState
  | ErrorDisplay : OrchState
  | Identify : OrchState
deriving DecidableEq, Repr

/-- Modelled from the spec: the transition out of the Fetching state of
the OrchestratorStateMachine, missing from src/.  Success or a result with
missing stations renders; a Failure escalates to ErrorDisplay only when
the cumulative failure time exceeds ERROR_RECOVERY_TIMEOUT, and otherwise
loops back to Sleeping to try again next wake. -/
def fetchingTransition (r : FetchResult) (cumFailureTime : ℕ) : OrchState :=
  match r with
  | FetchResult.Success _ => OrchState.Rendering
  | FetchResult.PartialSuccess _ _ => OrchState.Rendering
  | FetchResult.Failure _ =>
    if Config.ERROR_RECOVERY_TIMEOUT < cumFailureTime then OrchState.ErrorDisplay
    else OrchState.Sleeping

/-- Modelled from the spec: a run of consecutive failed fetch cycles.
Each cycle adds its failure time to the cumulative failure time (no
success resets it) and the machine takes the Fetching transition with the
updated cumulative time; the list collects the state entered after each
cycle. -/
def runFailureStates (k : FetchFailureKind) : List ℕ → ℕ → List OrchState
  | [], _ => []
  | e :: es, cum =>
    fetchingTransition (FetchResult.Failure k) (cum + e)
      :: runFailureStates k es (cum + e)

/-! ### DisplayRenderer -/

/-- The two refresh kinds of the anti-ghosting policy: a full
clear-then-draw cycle, or a fast update of dirty regions only. -/
inductive RefreshKind : Type
  | fullClear : RefreshKind
  | fastUpdate : RefreshKind
deriving DecidableEq, Repr

/-- Modelled from the spec: the anti-ghosting refresh choice of
DisplayRenderer, missing from src/.  Always-full policy when
`fullAlways` is set; otherwise counter-based — a full clear once the
cycle counter reaches the threshold, a fast update below it. -/
def chooseRefresh (fullAlways : Bool) (threshold counter : ℕ) : RefreshKind :=
  if fullAlways then RefreshKind.fullClear
  else if threshold ≤ counter then RefreshKind.fullClear
  else RefreshKind.fastUpdate

/-- The primitive operations a render issues to the panel. -/
inductive DisplayOp : Type
  | flashClear : DisplayOp
  | draw : DisplayOp
deriving DecidableEq, Repr

/-- Modelled from the spec: the operation sequence one render issues,
missing from src/.  A full clear performs `flashCycles` flash/clear stages
then draws; a fast update draws directly. -/
def renderOps (fullAlways : Bool) (threshold flashCycles counter : ℕ) :
    List DisplayOp :=
  match chooseRefresh fullAlways threshold counter with
  | RefreshKind.fullClear =>
    List.replicate flashCycles DisplayOp.flashClear ++ [DisplayOp.draw]
  | RefreshKind.fastUpdate => [DisplayOp.draw]

/-- The configured policy: FULL_REFRESH_ALWAYS = 1 selects the always-full
policy. -/
def deviceFullAlways : Bool := Config.FULL_REFRESH_ALWAYS = 1

/-- A concrete station entry whose temperature (100 Celsius) lies outside
the configured valid range while other fields are present. -/
def entryHotTemp : StationEntry :=
  { stationId := "chamonix-1"
    windSpeed := some 5
    windDirection := some 270
    temperature := some 100
    timestamp := some 1700000000 }

/-- The reading `parseStation` produces for `entryHotTemp`: the
out-of-range temperature is stored as absent. -/
def readingHotTemp : StationReading :=
  { stationId := "chamonix-1"
    windSpeed := some 5
    windDirection := some 270
    temperature := none
    timestamp := some 1700000000 }

/-- A concrete station entry whose fields are all null. -/
def entryAllNull : StationEntry :=
  { stationId := "solent-2"
    windSpeed := none
    windDirection := none
    temperature := none
    timestamp := none }

/-- A concrete two-station payload: one all-null entry next to one
parseable entry, small enough for either configured buffer. -/
def payloadWithNull : Payload :=
  { size := 512, entries := [entryAllNull, entryHotTemp] }

/-- A concrete oversized payload (5000 bytes > JSON_BUFFER_SIZE = 4096). -/
def payloadOversized : Payload :=
  { size := 5000, entries := [entryHotTemp] }

/-- A concrete fetch environment whose first attempt returns the oversized
payload with a 200 status and whose later attempts return the small
payload, both within the HTTP timeout. -/
def envOverflowThenOk : ℕ → AttemptBehavior
  | 0 => AttemptBehavior.respond 500 200 payloadOversized
  | _ + 1 => AttemptBehavior.respond 500 200 payloadWithNull

/-- A concrete fetch environment in which every attempt is refused. -/
def envAllRefused : ℕ → AttemptBehavior := fun _ => AttemptBehavior.refuse

/-! ### Helper lemmas -/

theorem conversionFactor_pos (u : WindUnit) : 0 < conversionFactor u := by
  cases u <;> norm_num [conversionFactor]

/-- Every attempt consumes at most its HTTP timeout. -/
theorem runAttempt_time_le (bufSize timeout : ℕ) (b : AttemptBehavior) :
    (runAttempt bufSize timeout b).2 ≤ timeout := by
  cases b with
  | refuse => simp [runAttempt]
  | respond t status p =>
    by_cases h : timeout < t
    · simp [runAttempt, h]
    · by_cases h2 : status / 100 = 2 <;> simp [runAttempt, h, h2] <;> omega

/-- The retry loop never makes more attempts than it was allowed. -/
theorem fetchFrom_attempts_le (bufSize timeout retryDelay : ℕ)
    (env : ℕ → AttemptBehavior) :
    ∀ remaining idx,
      (fetchFrom bufSize timeout retryDelay env idx remaining).attemptsMade
        ≤ remaining := by
  intro remaining
  induction remaining with
  | zero => intro idx; simp [fetchFrom]
  | succ n ih =>
    intro idx
    rw [fetchFrom]
    cases h : (runAttempt bufSize timeout (env idx)).1 with
    | ok parsed => simp [h]
    | error e =>
      by_cases hn : n = 0
      · simp [h, hn]
      · simpa [h, hn] using ih (idx + 1)

/-- When every attempt fails, the retry loop exhausts exactly its attempt
budget, sleeps the fixed delay between consecutive attempts, and ends in a
typed Failure. -/
theorem fetchFrom_exhaust (bufSize timeout retryDelay : ℕ)
    (env : ℕ → AttemptBehavior)
    (hall : ∀ i, ∃ e, (runAttempt bufSize timeout (env i)).1 = Except.error e) :
    ∀ remaining idx, remaining ≠ 0 →
      (fetchFrom bufSize timeout retryDelay env idx remaining).attemptsMade
          = remaining
      ∧ (fetchFrom bufSize timeout retryDelay env idx remaining).totalDelay
          = (remaining - 1) * retryDelay
      ∧ ∃ k, (fetchFrom bufSize timeout retryDelay env idx remaining).result
          = FetchResult.Failure k := by
  intro remaining
  induction remaining with
  | zero => intro idx h; exact absurd rfl h
  | succ n ih =>
    intro idx _
    obtain ⟨e, he⟩ := hall idx
    by_cases hn : n = 0
    · subst hn
      rw [fetchFrom]
      refine ⟨by simp [he], by simp [he], errorKind e, by simp [he]⟩
    · obtain ⟨h1, h2, k, h3⟩ := ih (idx + 1) hn
      obtain ⟨m, rfl⟩ : ∃ m, n = m + 1 :=
        ⟨n - 1, (Nat.succ_pred_eq_of_pos (Nat.pos_of_ne_zero hn)).symm⟩
      rw [fetchFrom]
      refine ⟨by simp [he, h1], ?_, k, by simp [he, h3]⟩
      simp only [he]
      simp [h2, Nat.succ_mul]

/-- A failed-cycle run whose cumulative failure time never exceeds the
error-recovery timeout only ever returns to Sleeping. -/
theorem runFailureStates_sleeping (k : FetchFailureKind) :
    ∀ (es : List ℕ) (cum : ℕ),
      cum + es.sum ≤ Config.ERROR_RECOVERY_TIMEOUT →
      ∀ s ∈ runFailureStates k es cum, s = OrchState.Sleeping := by
  intro es
  induction es with
  | nil => intro cum _ s hs; simp [runFailureStates] at hs
  | cons e es ih =>
    intro cum hsum s hs
    simp only [runFailureStates, List.mem_cons] at hs
    rcases hs with hs | hs
    · subst hs
      simp only [List.sum_cons] at hsum
      have : ¬ Config.ERROR_RECOVERY_TIMEOUT < cum + e := by omega
      simp [fetchingTransition, this]
    · exact ih (cum + e) (by simp only [List.sum_cons] at hsum; omega) s hs

/-- The configured FULL_REFRESH_ALWAYS = 1 makes the always-full policy
active. -/
theorem deviceFullAlways_eq : deviceFullAlways = true := rfl

/-! ### Claim theorems -/

/-- C1: for every cycleElapsed ≥ 0 and every targetInterval,
`computeSleepDuration cycleElapsed targetInterval MINIMUM_SLEEP_TIME`
equals `max MINIMUM_SLEEP_TIME (targetInterval - cycleElapsed)`, is never
below MINIMUM_SLEEP_TIME (30000 ms), and equals MINIMUM_SLEEP_TIME outright
when the cycle overran its target interval. -/
theorem computeSleepDuration_correct (cycleElapsed targetInterval : ℤ)
    (h : 0 ≤ cycleElapsed) :
    computeSleepDuration cycleElapsed targetInterval
        ((Config.MINIMUM_SLEEP_TIME : ℕ) : ℤ)
      = max ((Config.MINIMUM_SLEEP_TIME : ℕ) : ℤ) (targetInterval - cycleElapsed)
    ∧ ((Config.MINIMUM_SLEEP_TIME : ℕ) : ℤ)
        ≤ computeSleepDuration cycleElapsed targetInterval
            ((Config.MINIMUM_SLEEP_TIME : ℕ) : ℤ)
    ∧ (targetInterval < cycleElapsed →
        computeSleepDuration cycleElapsed targetInterval
            ((Config.MINIMUM_SLEEP_TIME : ℕ) : ℤ)
          = ((Config.MINIMUM_SLEEP_TIME : ℕ) : ℤ)) := by
  refine ⟨rfl, le_max_left _ _, fun hlt => ?_⟩
  have hle : targetInterval - cycleElapsed ≤ ((Config.MINIMUM_SLEEP_TIME : ℕ) : ℤ) := by
    simp only [Config.MINIMUM_SLEEP_TIME]
    omega
  simpa [computeSleepDuration] using max_eq_left hle

/-- Witness for C1 at the configured interval with an overrunning cycle
(cycleElapsed = 200000 > WEATHER_UPDATE_INTERVAL = 180000). -/
theorem computeSleepDuration_correct_witness :
    (0 : ℤ) ≤ 200000 ∧
      (computeSleepDuration 200000 ((Config.WEATHER_UPDATE_INTERVAL : ℕ) : ℤ)
          ((Config.MINIMUM_SLEEP_TIME : ℕ) : ℤ)
        = max ((Config.MINIMUM_SLEEP_TIME : ℕ) : ℤ)
            (((Config.WEATHER_UPDATE_INTERVAL : ℕ) : ℤ) - 200000)
      ∧ ((Config.MINIMUM_SLEEP_TIME : ℕ) : ℤ)
          ≤ computeSleepDuration 200000 ((Config.WEATHER_UPDATE_INTERVAL : ℕ) : ℤ)
              ((Config.MINIMUM_SLEEP_TIME : ℕ) : ℤ)
      ∧ (((Config.WEATHER_UPDATE_INTERVAL : ℕ) : ℤ) < 200000 →
          computeSleepDuration 200000 ((Config.WEATHER_UPDATE_INTERVAL : ℕ) : ℤ)
              ((Config.MINIMUM_SLEEP_TIME : ℕ) : ℤ)
            = ((Config.MINIMUM_SLEEP_TIME : ℕ) : ℤ))) :=
  ⟨by norm_num,
    computeSleepDuration_correct 200000 ((Config.WEATHER_UPDATE_INTERVAL : ℕ) : ℤ)
      (by norm_num)⟩

/-- C2: toDisplayUnit multiplies a present meters/second speed by 3.6 for
km/h and by 1.94384 for knots; it is a pure total Lean function (no error
path), a null speed passes through as null, and null is never replaced by
zero; presence of the output always matches presence of the input. -/
theorem toDisplayUnit_conversions (s : ℚ) (u : WindUnit) :
    toDisplayUnit (some s) WindUnit.kph = some (s * 3.6)
    ∧ toDisplayUnit (some s) WindUnit.kts = some (s * 1.94384)
    ∧ toDisplayUnit none u = none
    ∧ toDisplayUnit none u ≠ some 0
    ∧ ∀ x : Option ℚ, (toDisplayUnit x u).isSome = x.isSome := by
  refine ⟨rfl, rfl, rfl, by simp [toDisplayUnit], ?_⟩
  intro x
  cases x <;> simp [toDisplayUnit]

/-- C8: toDisplayUnit is monotone in the speed for each target unit, and
each conversion is inverted exactly by fromDisplayUnit (exact rational
arithmetic, hence within any floating rounding tolerance). -/
theorem toDisplayUnit_monotone_inverse (s1 s2 : ℚ) (u : WindUnit)
    (h0 : 0 ≤ s1) (h12 : s1 ≤ s2) :
    ∃ w1 w2 : ℚ,
      toDisplayUnit (some s1) u = some w1
      ∧ toDisplayUnit (some s2) u = some w2
      ∧ w1 ≤ w2
      ∧ fromDisplayUnit w1 u = s1
      ∧ fromDisplayUnit w2 u = s2 := by
  have hpos := conversionFactor_pos u
  refine ⟨s1 * conversionFactor u, s2 * conversionFactor u, rfl, rfl, ?_, ?_, ?_⟩
  · exact mul_le_mul_of_nonneg_right h12 hpos.le
  · unfold fromDisplayUnit
    exact mul_div_cancel_right₀ s1 hpos.ne'
  · unfold fromDisplayUnit
    exact mul_div_cancel_right₀ s2 hpos.ne'

/-- Witness for C8 at s1 = 1 ≤ s2 = 2 in km/h. -/
theorem toDisplayUnit_monotone_inverse_witness :
    (0 : ℚ) ≤ 1 ∧ (1 : ℚ) ≤ 2 ∧
      (∃ w1 w2 : ℚ,
        toDisplayUnit (some 1) WindUnit.kph = some w1
        ∧ toDisplayUnit (some 2) WindUnit.kph = some w2
        ∧ w1 ≤ w2
        ∧ fromDisplayUnit w1 WindUnit.kph = 1
        ∧ fromDisplayUnit w2 WindUnit.kph = 2) :=
  ⟨by norm_num, by norm_num,
    toDisplayUnit_monotone_inverse 1 2 WindUnit.kph (by norm_num) (by norm_num)⟩

/-- C3: a payload larger than the parse buffer makes the attempt fail
deterministically with ParseBufferOverflowError — no station readings are
produced — and the overflow is fatal only to that attempt: a following
attempt whose payload parses still lets the whole fetch succeed. -/
theorem parseBufferOverflow_safety (bufSize timeout retryDelay : ℕ)
    (p : Payload) (hsize : bufSize < p.size) (t status : ℕ)
    (ht : t ≤ timeout) (hstatus : status / 100 = 2)
    (env : ℕ → AttemptBehavior)
    (henv : env 0 = AttemptBehavior.respond t status p)
    (ok : List StationParse)
    (hnext : (runAttempt bufSize timeout (env 1)).1 = Except.ok ok) :
    parsePayload bufSize p = Except.error AttemptError.ParseBufferOverflowError
    ∧ (runAttempt bufSize timeout (env 0)).1
        = Except.error AttemptError.ParseBufferOverflowError
    ∧ (fetchFrom bufSize timeout retryDelay env 0 Config.MAX_HTTP_RETRIES).result
        = classifyParsed ok := by
  have hparse : parsePayload bufSize p
      = Except.error AttemptError.ParseBufferOverflowError := by
    simp [parsePayload, hsize]
  have hrun : (runAttempt bufSize timeout (env 0)).1
      = Except.error AttemptError.ParseBufferOverflowError := by
    rw [henv]
    simp [runAttempt, Nat.not_lt.mpr ht, hstatus, hparse]
  refine ⟨hparse, hrun, ?_⟩
  have h3 : Config.MAX_HTTP_RETRIES = 1 + 1 + 1 := rfl
  rw [h3, fetchFrom]
  simp only [hrun]
  have h10 : (1 : ℕ) + 1 ≠ 0 := by decide
  rw [if_neg h10]
  show (fetchFrom bufSize timeout retryDelay env (0 + 1) (1 + 1)).result
      = classifyParsed ok
  rw [fetchFrom]
  have h01 : (0 : ℕ) + 1 = 1 := rfl
  rw [h01]
  simp only [hnext]

/-- C6: a station entry whose fields are all null parses to a missing
station, and the payload as a whole still parses (no payload-level parse
failure) whenever another entry of the payload parsed to a present
reading and the payload fits the buffer. -/
theorem nullStation_missing (bufSize : ℕ) (p : Payload) (e eOther : StationEntry)
    (he : e ∈ p.entries) (hnull : allFieldsNull e = true)
    (ho : eOther ∈ p.entries) (hop : (parseStation eOther).isPresent = true)
    (hsize : p.size ≤ bufSize) :
    parseStation e = StationParse.missing
    ∧ parsePayload bufSize p = Except.ok (p.entries.map parseStation) := by
  refine ⟨by simp [parseStation, hnull], ?_⟩
  have hnotlt : ¬ bufSize < p.size := Nat.not_lt.mpr hsize
  have hany : (p.entries.map parseStation).any StationParse.isPresent = true := by
    rw [List.any_eq_true]
    exact ⟨parseStation eOther, List.mem_map_of_mem _ ho, hop⟩
  simp [parsePayload, hnotlt, hany]

/-- C7: every reading the model stores has its temperature, when present,
inside the configured valid range; an input temperature outside the range
is stored as absent, never clamped to a boundary. -/
theorem temperature_range_invariant (e : StationEntry) (r : StationReading)
    (hpr : parseStation e = StationParse.present r) :
    (∀ t : ℚ, r.temperature = some t → validTemp t)
    ∧ (∀ v : ℚ, e.temperature = some v → ¬ validTemp v → r.temperature = none) := by
  unfold parseStation at hpr
  by_cases hn : allFieldsNull e = true
  · rw [if_pos hn] at hpr
    exact absurd hpr (by simp)
  · rw [if_neg hn] at hpr
    injection hpr with hr
    subst hr
    constructor
    · intro t ht
      have ht2 : validateTemperature e.temperature = some t := ht
      cases hct : e.temperature with
      | none =>
        rw [hct] at ht2
        exact absurd ht2 (by simp [validateTemperature])
      | some v =>
        rw [hct] at ht2
        simp only [validateTemperature] at ht2
        by_cases hv : validTemp v
        · rw [if_pos hv] at ht2
          injection ht2 with hvt
          exact hvt ▸ hv
        · rw [if_neg hv] at ht2
          exact absurd ht2 (by simp)
    · intro v hv hnv
      show validateTemperature e.temperature = none
      rw [hv]
      unfold validateTemperature
      exact if_neg hnv

/-- C4: fetch makes at most MAX_HTTP_RETRIES (3) attempts, each bounded by
its own HTTP timeout, with the fixed HTTP_RETRY_DELAY (1000 ms) between
consecutive attempts; when every attempt fails it exhausts exactly its
budget and returns Failure(NetworkError) or Failure(ParseError), and the
two causes are distinguishable. -/
theorem fetch_retry_policy (env : ℕ → AttemptBehavior)
    (hall : ∀ i, ∃ e,
      (runAttempt Config.JSON_BUFFER_SIZE Driver.HTTP_TIMEOUT (env i)).1
        = Except.error e) :
    (∀ env2, (fetch env2).attemptsMade ≤ Config.MAX_HTTP_RETRIES)
    ∧ (∀ b, (runAttempt Config.JSON_BUFFER_SIZE Driver.HTTP_TIMEOUT b).2
        ≤ Driver.HTTP_TIMEOUT)
    ∧ (fetch env).attemptsMade = Config.MAX_HTTP_RETRIES
    ∧ (fetch env).totalDelay
        = (Config.MAX_HTTP_RETRIES - 1) * Config.HTTP_RETRY_DELAY
    ∧ ((fetch env).result = FetchResult.Failure FetchFailureKind.NetworkError
       ∨ (fetch env).result = FetchResult.Failure FetchFailureKind.ParseError)
    ∧ FetchFailureKind.NetworkError ≠ FetchFailureKind.ParseError := by
  obtain ⟨h1, h2, k, h3⟩ :=
    fetchFrom_exhaust Config.JSON_BUFFER_SIZE Driver.HTTP_TIMEOUT
      Config.HTTP_RETRY_DELAY env hall Config.MAX_HTTP_RETRIES 0 (by decide)
  refine ⟨fun env2 => fetchFrom_attempts_le _ _ _ env2 _ 0,
    runAttempt_time_le _ _, h1, h2, ?_, by decide⟩
  cases k with
  | NetworkError => exact Or.inl h3
  | ParseError => exact Or.inr h3

/-- C5: the Fetching state escalates to ErrorDisplay exactly when the
result is a Failure and the cumulative failure time exceeds
ERROR_RECOVERY_TIMEOUT (300000 ms); a run of failed cycles whose total
failure time stays at or below the threshold only ever returns to Sleeping
and never enters ErrorDisplay. -/
theorem fetching_error_escalation (r : FetchResult) (t : ℕ)
    (k : FetchFailureKind) (es : List ℕ)
    (hsum : es.sum ≤ Config.ERROR_RECOVERY_TIMEOUT) :
    (fetchingTransition r t = OrchState.ErrorDisplay
      ↔ (∃ k2, r = FetchResult.Failure k2)
          ∧ Config.ERROR_RECOVERY_TIMEOUT < t)
    ∧ (∀ s ∈ runFailureStates k es 0, s = OrchState.Sleeping)
    ∧ OrchState.ErrorDisplay ∉ runFailureStates k es 0 := by
  have hsl := runFailureStates_sleeping k es 0 (by omega)
  refine ⟨?_, hsl, fun hmem => absurd (hsl _ hmem) (by decide)⟩
  cases r with
  | Success l => simp [fetchingTransition]
  | PartialSuccess l n => simp [fetchingTransition]
  | Failure k2 =>
    by_cases h : Config.ERROR_RECOVERY_TIMEOUT < t
    · simp [fetchingTransition, h]
    · simp [fetchingTransition, h]

/-- C9: the refresh choice never yields a fast update once the counter has
reached the full-clear threshold; it is a deterministic function of the
cycle counter; and under the configured always-full policy
(FULL_REFRESH_ALWAYS = 1) every render performs a full clear-then-draw
cycle with FLASH_CLEAR_CYCLES (1) flash stages followed by the draw. -/
theorem antiGhosting_policy (fullAlways : Bool)
    (threshold flashCycles c c2 : ℕ) (hth : threshold ≤ c) :
    chooseRefresh fullAlways threshold c ≠ RefreshKind.fastUpdate
    ∧ (c = c2 →
        renderOps fullAlways threshold flashCycles c
          = renderOps fullAlways threshold flashCycles c2)
    ∧ deviceFullAlways = true
    ∧ (∀ n, chooseRefresh deviceFullAlways threshold n = RefreshKind.fullClear)
    ∧ (∀ n, renderOps deviceFullAlways threshold Config.FLASH_CLEAR_CYCLES n
        = List.replicate Config.FLASH_CLEAR_CYCLES DisplayOp.flashClear
            ++ [DisplayOp.draw]) := by
  refine ⟨?_, fun h => by rw [h], deviceFullAlways_eq,
    fun n => by simp [chooseRefresh, deviceFullAlways_eq],
    fun n => by simp [renderOps, chooseRefresh, deviceFullAlways_eq]⟩
  cases fullAlways with
  | false => simp [chooseRefresh, hth]
  | true => simp [chooseRefresh]

/-- Witness for C3: the 5000-byte payload against the 4096-byte buffer of
config.h, followed by an attempt that parses. -/
theorem parseBufferOverflow_safety_witness :
    Config.JSON_BUFFER_SIZE < payloadOversized.size
    ∧ (500 : ℕ) ≤ Driver.HTTP_TIMEOUT
    ∧ (200 : ℕ) / 100 = 2
    ∧ envOverflowThenOk 0 = AttemptBehavior.respond 500 200 payloadOversized
    ∧ (runAttempt Config.JSON_BUFFER_SIZE Driver.HTTP_TIMEOUT
        (envOverflowThenOk 1)).1
        = Except.ok (payloadWithNull.entries.map parseStation)
    ∧ (parsePayload Config.JSON_BUFFER_SIZE payloadOversized
          = Except.error AttemptError.ParseBufferOverflowError
      ∧ (runAttempt Config.JSON_BUFFER_SIZE Driver.HTTP_TIMEOUT
            (envOverflowThenOk 0)).1
          = Except.error AttemptError.ParseBufferOverflowError
      ∧ (fetchFrom Config.JSON_BUFFER_SIZE Driver.HTTP_TIMEOUT
            Config.HTTP_RETRY_DELAY envOverflowThenOk 0
            Config.MAX_HTTP_RETRIES).result
          = classifyParsed (payloadWithNull.entries.map parseStation)) :=
  ⟨by decide, by decide, by decide, rfl, rfl,
    parseBufferOverflow_safety Config.JSON_BUFFER_SIZE Driver.HTTP_TIMEOUT
      Config.HTTP_RETRY_DELAY payloadOversized (by decide) 500 200
      (by decide) (by decide) envOverflowThenOk rfl
      (payloadWithNull.entries.map parseStation) rfl⟩

/-- Witness for C4 in the environment where every attempt is refused. -/
theorem fetch_retry_policy_witness :
    (∀ i, ∃ e,
      (runAttempt Config.JSON_BUFFER_SIZE Driver.HTTP_TIMEOUT
        (envAllRefused i)).1 = Except.error e)
    ∧ ((∀ env2, (fetch env2).attemptsMade ≤ Config.MAX_HTTP_RETRIES)
      ∧ (∀ b, (runAttempt Config.JSON_BUFFER_SIZE Driver.HTTP_TIMEOUT b).2
          ≤ Driver.HTTP_TIMEOUT)
      ∧ (fetch envAllRefused).attemptsMade = Config.MAX_HTTP_RETRIES
      ∧ (fetch envAllRefused).totalDelay
          = (Config.MAX_HTTP_RETRIES - 1) * Config.HTTP_RETRY_DELAY
      ∧ ((fetch envAllRefused).result
            = FetchResult.Failure FetchFailureKind.NetworkError
         ∨ (fetch envAllRefused).result
            = FetchResult.Failure FetchFailureKind.ParseError)
      ∧ FetchFailureKind.NetworkError ≠ FetchFailureKind.ParseError) :=
  ⟨fun i => ⟨AttemptError.ConnectionRefused, rfl⟩,
    fetch_retry_policy envAllRefused
      (fun i => ⟨AttemptError.ConnectionRefused, rfl⟩)⟩

/-- Witness for C5: three consecutive failed cycles of 32000 ms each
(3 attempts x 10000 ms plus 2 x 1000 ms delay), cumulative 96000 ms,
below the 300000 ms threshold. -/
theorem fetching_error_escalation_witness :
    ([32000, 32000, 32000] : List ℕ).sum ≤ Config.ERROR_RECOVERY_TIMEOUT
    ∧ ((fetchingTransition
          (FetchResult.Failure FetchFailureKind.NetworkError) 96000
            = OrchState.ErrorDisplay
        ↔ (∃ k2, FetchResult.Failure FetchFailureKind.NetworkError
              = FetchResult.Failure k2)
            ∧ Config.ERROR_RECOVERY_TIMEOUT < 96000)
      ∧ (∀ s ∈ runFailureStates FetchFailureKind.NetworkError
            [32000, 32000, 32000] 0, s = OrchState.Sleeping)
      ∧ OrchState.ErrorDisplay ∉ runFailureStates FetchFailureKind.NetworkError
          [32000, 32000, 32000] 0) :=
  ⟨by decide,
    fetching_error_escalation (FetchResult.Failure FetchFailureKind.NetworkError)
      96000 FetchFailureKind.NetworkError [32000, 32000, 32000] (by decide)⟩

/-- Witness for C6: the two-station payload holding one all-null entry and
one parseable entry, against the 2048-byte buffer of driver.h. -/
theorem nullStation_missing_witness :
    entryAllNull ∈ payloadWithNull.entries
    ∧ allFieldsNull entryAllNull = true
    ∧ entryHotTemp ∈ payloadWithNull.entries
    ∧ (parseStation entryHotTemp).isPresent = true
    ∧ payloadWithNull.size ≤ Driver.JSON_BUFFER_SIZE
    ∧ (parseStation entryAllNull = StationParse.missing
      ∧ parsePayload Driver.JSON_BUFFER_SIZE payloadWithNull
          = Except.ok (payloadWithNull.entries.map parseStation)) :=
  ⟨List.mem_cons_self _ _, rfl,
    List.mem_cons_of_mem _ (List.mem_cons_self _ _), rfl, by decide,
    nullStation_missing Driver.JSON_BUFFER_SIZE payloadWithNull entryAllNull
      entryHotTemp (List.mem_cons_self _ _) rfl
      (List.mem_cons_of_mem _ (List.mem_cons_self _ _)) rfl (by decide)⟩

/-- Witness for C7 at the entry whose 100 Celsius temperature is out of
range: the stored reading has an absent temperature. -/
theorem temperature_range_invariant_witness :
    parseStation entryHotTemp = StationParse.present readingHotTemp
    ∧ ((∀ t : ℚ, readingHotTemp.temperature = some t → validTemp t)
      ∧ (∀ v : ℚ, entryHotTemp.temperature = some v → ¬ validTemp v →
          readingHotTemp.temperature = none)) :=
  ⟨rfl, temperature_range_invariant entryHotTemp readingHotTemp rfl⟩

/-- Witness for C9 with a counter-based policy at threshold 4 and counter
7, and the configured always-full policy. -/
theorem antiGhosting_policy_witness :
    (4 : ℕ) ≤ 7
    ∧ (chooseRefresh false 4 7 ≠ RefreshKind.fastUpdate
      ∧ ((7 : ℕ) = 7 → renderOps false 4 2 7 = renderOps false 4 2 7)
      ∧ deviceFullAlways = true
      ∧ (∀ n, chooseRefresh deviceFullAlways 4 n = RefreshKind.fullClear)
      ∧ (∀ n, renderOps deviceFullAlways 4 Config.FLASH_CLEAR_CYCLES n
          = List.replicate Config.FLASH_CLEAR_CYCLES DisplayOp.flashClear
              ++ [DisplayOp.draw])) :=
  ⟨by decide, antiGhosting_policy false 4 2 7 7 (by decide)⟩

/-- C10: the two headers define unequal parse-buffer bounds —
JSON_BUFFER_SIZE is 4096 in config.h and 2048 in driver.h — so the
configuration does not determine a single buffer-overflow threshold. -/
theorem jsonBufferSize_ambiguous :
    Config.JSON_BUFFER_SIZE = 4096
    ∧ Driver.JSON_BUFFER_SIZE = 2048
    ∧ Config.JSON_BUFFER_SIZE ≠ Driver.JSON_BUFFER_SIZE := by
  exact ⟨rfl, rfl, by decide⟩

end WeatherDisplay
